import Mathlib

/-!
Shallow embedding of the `spool-hq/solana-sdk` client SDK:
`src/javascript/solana.js/src/accounts/oracleAccount.ts` and
`src/libraries/sbv2-utils/src/token.ts`.

External effects (RPC fetches, PDA derivation, keypair generation,
transaction submission) are modelled as fields of explicit environment
records; fallible TypeScript code becomes `Except`.
-/

/-- Public keys are modelled as natural numbers standing for 32-byte addresses. -/
abbrev PublicKey := Nat

/-- An ed25519 keypair; only the public half is observable to the SDK code modelled here. -/
structure Keypair where
  publicKey : PublicKey
  secretSeed : Nat
  deriving DecidableEq

/-- `spl.TOKEN_PROGRAM_ID`: opaque well-known address. -/
def TOKEN_PROGRAM_ID : PublicKey := 901

/-- `spl.ASSOCIATED_TOKEN_PROGRAM_ID`: opaque well-known address. -/
def ASSOCIATED_TOKEN_PROGRAM_ID : PublicKey := 902

/-- `SystemProgram.programId`: opaque well-known address. -/
def SYSTEM_PROGRAM_ID : PublicKey := 903

/-- `spl.NATIVE_MINT`: opaque well-known address. -/
def NATIVE_MINT : PublicKey := 904

/-- `spl.ACCOUNT_SIZE`: byte size of an SPL token account. -/
def ACCOUNT_SIZE : Nat := 165

/-- `Buffer.from(s, 'utf8')` as a list of byte values. -/
def utf8Bytes (s : String) : List Nat :=
  s.toUTF8.toList.map (fun b => b.toNat)

/-- `pk.toBuffer()`: the 32-byte little-endian encoding of a public key. -/
def pkBytes (pk : PublicKey) : List Nat :=
  (List.range 32).map (fun i => pk / 256 ^ i % 256)

/-- `spl.AuthorityType` from the SPL token library. -/
inductive AuthorityType where
  | MintTokens
  | FreezeAccount
  | AccountOwner
  | CloseAccount
  deriving DecidableEq

/-- The fields of `types.OracleAccountData` that the modelled SDK code reads. -/
structure OracleAccountData where
  name : List Nat
  metadata : List Nat
  oracleAuthority : PublicKey
  queuePubkey : PublicKey
  tokenAccount : PublicKey
  deriving DecidableEq

/-- The fields of `types.OracleQueueAccountData` that the modelled SDK code reads. -/
structure OracleQueueAccountData where
  authority : PublicKey
  dataBuffer : PublicKey
  gcIdx : Nat
  deriving DecidableEq

/-- `types.PermissionAccountData`; the modelled code only tests its existence. -/
structure PermissionAccountData where
  authority : PublicKey
  deriving DecidableEq

/-- Parameters of the generated `types.oracleInit` instruction payload. -/
structure OracleInitIxnParams where
  name : List Nat
  metadata : List Nat
  oracleBump : Nat
  stateBump : Nat
  deriving DecidableEq

/-- Account metas of the generated `types.oracleInit` instruction. -/
structure OracleInitAccounts where
  oracle : PublicKey
  oracleAuthority : PublicKey
  wallet : PublicKey
  programState : PublicKey
  queue : PublicKey
  payer : PublicKey
  systemProgram : PublicKey
  deriving DecidableEq

/-- Account metas of the generated `types.oracleHeartbeat` instruction.
`gcOracle` is an `Option` because the TypeScript caller can pass the
JavaScript value `undefined` there (an out-of-bounds array read). -/
structure OracleHeartbeatAccounts where
  oracle : PublicKey
  oracleAuthority : PublicKey
  tokenAccount : PublicKey
  gcOracle : Option PublicKey
  oracleQueue : PublicKey
  permission : PublicKey
  dataBuffer : PublicKey
  deriving DecidableEq

/-- Instructions the modelled SDK code builds.  Each constructor mirrors one
external builder (`SystemProgram.*`, `spl.create*Instruction`, or a generated
`types.*` instruction) applied to the argument fields it records. -/
inductive Instruction where
  | systemCreateAccount (fromPubkey newAccountPubkey : PublicKey) (space lamports : Nat)
      (programId : PublicKey)
  | splInitializeAccount (account mint owner : PublicKey)
  | splSetAuthority (account currentAuthority : PublicKey) (authorityType : AuthorityType)
      (newAuthority : PublicKey)
  | oracleInit (params : OracleInitIxnParams) (accounts : OracleInitAccounts)
  | splTransfer (source destination owner : PublicKey) (amount : Int)
      (multiSigners : List PublicKey) (programId : PublicKey)
  | oracleHeartbeat (permissionBump : Nat) (accounts : OracleHeartbeatAccounts)
  | createAssociatedTokenAccount (payer associatedToken owner mint : PublicKey)
      (programId associatedTokenProgramId : PublicKey)
  | systemTransfer (fromPubkey toPubkey : PublicKey) (lamports : Int)
  | syncNative (account : PublicKey) (programId : PublicKey)
  | closeAccount (account destination authority : PublicKey) (multiSigners : List PublicKey)
      (programId : PublicKey)
  deriving DecidableEq

/-- `TransactionObject` from `src/javascript/solana.js/src/transaction.ts`
(payer, instruction list, signers), which is not under `src/`.
Modelled from the spec: the transaction composition helper that carries a
sequence of instructions and its signers. -/
structure TransactionObject where
  payer : PublicKey
  ixns : List Instruction
  signers : List Keypair
  deriving DecidableEq

/-- Modelled from the spec: `TransactionObject.add` appends instructions to
the transaction's instruction sequence (code not under `src/`). -/
def TransactionObject.add (t : TransactionObject) (ixns : List Instruction) : TransactionObject :=
  { t with ixns := t.ixns ++ ixns }

/-- Static connection-independent data of a `SwitchboardProgram`. -/
structure SwitchboardProgram where
  programId : PublicKey
  walletPubkey : PublicKey
  mintAddress : PublicKey
  programStatePubkey : PublicKey
  programStateBump : Nat
  oracleAccountDataSize : Nat
  deriving DecidableEq

/-- Errors thrown by the modelled SDK code (`src/errors.ts` plus plain
`new Error(msg)` throws). -/
inductive SbError where
  | accountNotFound (pk : PublicKey)
  | generic (msg : String)
  | incorrectAuthority (expected received : PublicKey)
  deriving DecidableEq

/-- Environment of external effects used by `oracleAccount.ts`: each field is
one external call (anchor PDA derivation, generated codecs and fetches, the
SPL/mint helpers, and repository code that is not under `src/`). -/
structure Env where
  /-- `anchor.utils.publicKey.findProgramAddressSync` (external library). -/
  findProgramAddress : List (List Nat) → PublicKey → PublicKey × Nat
  /-- `new PublicKey(string)` (external library base58 parse). -/
  parsePubkey : String → PublicKey
  /-- `types.OracleAccountData.fetch`: `none` models a `null` RPC result. -/
  fetchOracle : PublicKey → Option OracleAccountData
  /-- `QueueAccount.loadData` fetch: `none` models a missing account. -/
  fetchQueue : PublicKey → Option OracleQueueAccountData
  /-- `PermissionAccount.loadData` fetch: `none` models a missing account. -/
  fetchPermission : PublicKey → Option PermissionAccountData
  /-- `queueAccount.loadOracles()`: the queue's oracle list. -/
  loadOracles : PublicKey → List PublicKey
  /-- Modelled from the spec: `PermissionAccount.fromSeed` (code not under
  `src/`), a PDA derivation from (queue authority, queue, grantee). -/
  permissionFromSeed : PublicKey → PublicKey → PublicKey → PublicKey × Nat
  /-- `connection.getMinimumBalanceForRentExemption`. -/
  minimumBalanceForRentExemption : Nat → Nat
  /-- `Keypair.generate()`: the next generated keypair. -/
  generatedKeypair : Keypair
  /-- Modelled from the spec: `mint.getOrCreateWrappedUserInstructions`
  (code not under `src/`) returns the funder token account and a wrap-funds
  transaction, from (payer, fundUpTo amount, funder authority). -/
  getOrCreateWrappedUser : PublicKey → Rat → Option Keypair → PublicKey × TransactionObject
  /-- `mint.toTokenAmount`: decimal token amount to raw amount. -/
  toTokenAmount : Rat → Int
  /-- Generated codec `types.OracleAccountData.decode`; `Except` models throwing. -/
  typesDecode : List Nat → Except Nat OracleAccountData
  /-- `program.coder.decode(accountName, data)` fallback decoder. -/
  coderDecode : String → List Nat → OracleAccountData
  /-- Modelled from the spec: `TransactionObject.pack` (code not under `src/`)
  packs a sequence of transactions into one or more transactions respecting
  size/signer constraints. -/
  pack : List TransactionObject → List TransactionObject
  /-- `program.signAndSend`: submits one transaction, returns its signature. -/
  signAndSend : TransactionObject → Nat

/-- An `OracleAccount`: a program handle plus the account's public key. -/
structure OracleAccount where
  program : SwitchboardProgram
  publicKey : PublicKey
  deriving DecidableEq

/-- `OracleAccount.decode`: try the generated codec, fall back to the
program coder on a throw. -/
def OracleAccount.decode (env : Env) (_acct : OracleAccount) (data : List Nat) :
    OracleAccountData :=
  match env.typesDecode data with
  | .ok r => r
  | .error _ => env.coderDecode "OracleAccountData" data

/-- `OracleAccount.loadData`: fetch and decode the account, throwing
`AccountNotFoundError` when the fetch returns `null`. -/
def OracleAccount.loadData (env : Env) (acct : OracleAccount) :
    Except SbError OracleAccountData :=
  match env.fetchOracle acct.publicKey with
  | none => .error (.accountNotFound acct.publicKey)
  | some d => .ok d

/-- The `PublicKey | string` argument type of `OracleAccount.load`. -/
inductive PubkeyOrString where
  | pk (p : PublicKey)
  | str (s : String)

/-- `typeof publicKey === 'string' ? new PublicKey(publicKey) : publicKey`. -/
def keyOf (env : Env) (k : PubkeyOrString) : PublicKey :=
  match k with
  | .pk p => p
  | .str s => env.parsePubkey s

/-- `OracleAccount.load`: construct the account handle, then load its state. -/
def OracleAccount.load (env : Env) (program : SwitchboardProgram) (k : PubkeyOrString) :
    Except SbError (OracleAccount × OracleAccountData) :=
  let account : OracleAccount := ⟨program, keyOf env k⟩
  (OracleAccount.loadData env account).map (fun state => (account, state))

/-- `OracleAccount.fromSeed`: derive the oracle PDA from the seeds
`['OracleAccountData', queue, wallet]` and the program id. -/
def OracleAccount.fromSeed (env : Env) (program : SwitchboardProgram)
    (queue wallet : PublicKey) : OracleAccount × Nat :=
  let r := env.findProgramAddress
    [utf8Bytes "OracleAccountData", pkBytes queue, pkBytes wallet] program.programId
  (⟨program, r.1⟩, r.2)

/-- `OracleStakeParams` from `oracleAccount.ts`. -/
structure OracleStakeParams where
  stakeAmount : Option Rat := none
  funderTokenAccount : Option PublicKey := none
  funderAuthority : Option Keypair := none

/-- `OracleStakeParams & \x7b tokenAccount?: PublicKey \x7d`, the parameter
type of `stakeInstructions`. -/
structure StakeTokenParams extends OracleStakeParams where
  tokenAccount : Option PublicKey := none

/-- `OracleAccount.stakeInstructions`: guard the stake amount, resolve the
oracle's staking wallet, wrap funds, and append the SPL transfer. -/
def OracleAccount.stakeInstructions (env : Env) (acct : OracleAccount) (payer : PublicKey)
    (params : StakeTokenParams) : Except SbError TransactionObject :=
  match params.stakeAmount with
  | none => .error (.generic "stake amount should be greater than 0")
  | some amt =>
    if amt ≤ 0 then .error (.generic "stake amount should be greater than 0")
    else
      match (match params.tokenAccount with
             | some t => Except.ok t
             | none =>
               (OracleAccount.loadData env acct).map (fun d => d.tokenAccount) :
             Except SbError PublicKey) with
      | .error e => .error e
      | .ok tokenWallet =>
        let funderAuthority := (params.funderAuthority.map (fun k => k.publicKey)).getD payer
        let r := env.getOrCreateWrappedUser payer amt params.funderAuthority
        .ok (r.2.add
          [.splTransfer r.1 tokenWallet funderAuthority (env.toTokenAmount amt) []
            TOKEN_PROGRAM_ID])

/-- `OracleInitParams` from `oracleAccount.ts`. -/
structure OracleInitParams where
  name : Option String := none
  metadata : Option String := none
  authority : Option Keypair := none

/-- The parameter record of `OracleAccount.createInstructions`:
`\x7b queueAccount \x7d & OracleInitParams & OracleStakeParams`
(the `QueueAccount` handle is represented by its public key). -/
structure OracleCreateParams extends OracleInitParams, OracleStakeParams where
  queueAccount : PublicKey

/-- The payload of the `types.oracleInit` instruction built by
`OracleAccount.createInstructions`: UTF-8 name and metadata truncated to the
32- and 128-byte on-chain fields, plus the two bumps. -/
def oracleInitIxnParams (env : Env) (program : SwitchboardProgram)
    (params : OracleCreateParams) : OracleInitIxnParams :=
  { name := (utf8Bytes (params.name.getD "")).take 32
    metadata := (utf8Bytes (params.metadata.getD "")).take 128
    oracleBump :=
      (OracleAccount.fromSeed env program params.queueAccount env.generatedKeypair.publicKey).2
    stateBump := program.programStateBump }

/-- The `oracleInit` `TransactionObject` literal built inside
`OracleAccount.createInstructions`: create and initialize the token wallet,
hand its ownership to the program state, then invoke `types.oracleInit`. -/
def oracleInitTxnObj (env : Env) (program : SwitchboardProgram) (payer : PublicKey)
    (params : OracleCreateParams) : TransactionObject :=
  let tokenWallet := env.generatedKeypair
  let authority := (params.authority.map (fun k => k.publicKey)).getD payer
  let fs := OracleAccount.fromSeed env program params.queueAccount tokenWallet.publicKey
  { payer := payer
    ixns := [
      .systemCreateAccount payer tokenWallet.publicKey ACCOUNT_SIZE
        (env.minimumBalanceForRentExemption ACCOUNT_SIZE) TOKEN_PROGRAM_ID,
      .splInitializeAccount tokenWallet.publicKey program.mintAddress authority,
      .splSetAuthority tokenWallet.publicKey authority AuthorityType.AccountOwner
        program.programStatePubkey,
      .oracleInit (oracleInitIxnParams env program params)
        { oracle := fs.1.publicKey
          oracleAuthority := authority
          wallet := tokenWallet.publicKey
          programState := program.programStatePubkey
          queue := params.queueAccount
          payer := payer
          systemProgram := SYSTEM_PROGRAM_ID } ]
    signers :=
      match params.authority with
      | some a => [a, tokenWallet]
      | none => [tokenWallet] }

/-- `OracleAccount.createInstructions`: build the `oracleInit` transaction,
optionally append a stake transaction, pack, and demand a single packed
transaction. -/
def OracleAccount.createInstructions (env : Env) (program : SwitchboardProgram)
    (payer : PublicKey) (params : OracleCreateParams) :
    Except SbError (OracleAccount × Option TransactionObject) :=
  let tokenWallet := env.generatedKeypair
  let fs := OracleAccount.fromSeed env program params.queueAccount tokenWallet.publicKey
  let oracleInitTxn := oracleInitTxnObj env program payer params
  let txnsE : Except SbError (List TransactionObject) :=
    match params.stakeAmount with
    | some amt =>
      if 0 < amt then
        match OracleAccount.stakeInstructions env fs.1 payer
          { stakeAmount := some amt
            funderAuthority := params.funderAuthority
            funderTokenAccount := params.funderTokenAccount
            tokenAccount := some tokenWallet.publicKey } with
        | .error e => .error e
        | .ok depositTxn => .ok [oracleInitTxn, depositTxn]
      else .ok [oracleInitTxn]
    | none => .ok [oracleInitTxn]
  match txnsE with
  | .error e => .error e
  | .ok txns =>
    let packed := env.pack txns
    if packed.length > 1 then .error (.generic "Expected a single TransactionObject")
    else .ok (fs.1, packed.head?)

/-- The stake `TransactionObject` that `stakeInstructions` returns on the
success path: the wrap-funds transaction with the SPL transfer appended. -/
def oracleStakeTxnObj (env : Env) (payer : PublicKey) (funderAuthority : Option Keypair)
    (amt : Rat) (tokenWallet : PublicKey) : TransactionObject :=
  let r := env.getOrCreateWrappedUser payer amt funderAuthority
  r.2.add
    [.splTransfer r.1 tokenWallet ((funderAuthority.map (fun k => k.publicKey)).getD payer)
      (env.toTokenAmount amt) [] TOKEN_PROGRAM_ID]

/-- The transaction list that `createInstructions` hands to
`TransactionObject.pack`: the `oracleInit` transaction, with the stake
transaction appended exactly when a positive `stakeAmount` was given. -/
def oracleCreateTxnList (env : Env) (program : SwitchboardProgram) (payer : PublicKey)
    (params : OracleCreateParams) : List TransactionObject :=
  oracleInitTxnObj env program payer params ::
    (match params.stakeAmount with
     | some amt =>
       if 0 < amt then
         [oracleStakeTxnObj env payer params.funderAuthority amt env.generatedKeypair.publicKey]
       else []
     | none => [])

/-- The (optional) parameter record of `OracleAccount.heartbeat`; when the
record is present, `queueAccount` is required and the rest are optional. -/
structure OracleHeartbeatParams where
  queueAccount : PublicKey
  tokenWallet : Option PublicKey := none
  queueAuthority : Option PublicKey := none
  queue : Option OracleQueueAccountData := none
  permission : Option (PublicKey × Nat) := none
  authority : Option Keypair := none

/-- Parameter record of `OracleAccount.heartbeatInstruction`. -/
structure HeartbeatIxnParams where
  tokenWallet : PublicKey
  gcOracle : Option PublicKey
  oracleQueue : PublicKey
  dataBuffer : PublicKey
  permission : PublicKey × Nat
  authority : Option PublicKey := none

/-- `OracleAccount.heartbeatInstruction`: the generated `types.oracleHeartbeat`
instruction with the oracle's accounts filled in. -/
def OracleAccount.heartbeatInstruction (acct : OracleAccount) (payer : PublicKey)
    (params : HeartbeatIxnParams) : Instruction :=
  .oracleHeartbeat params.permission.2
    { oracle := acct.publicKey
      oracleAuthority := params.authority.getD payer
      tokenAccount := params.tokenWallet
      gcOracle := params.gcOracle
      oracleQueue := params.oracleQueue
      permission := params.permission.1
      dataBuffer := params.dataBuffer }

/-- `params?.queueAccount ?? new QueueAccount(program, oracle.queuePubkey)`:
the public key of the queue the heartbeat targets. -/
def heartbeatQueueKey (params : Option OracleHeartbeatParams)
    (oracle : OracleAccountData) : PublicKey :=
  match params with
  | some p => p.queueAccount
  | none => oracle.queuePubkey

/-- `params?.queue ?? (await queueAccount.loadData())`: the queue state used
by `heartbeat`, throwing `AccountNotFoundError` when it must be fetched and
the account is missing. -/
def resolvedQueue (env : Env) (params : Option OracleHeartbeatParams)
    (queueKey : PublicKey) : Except SbError OracleQueueAccountData :=
  match params.bind (fun p => p.queue) with
  | some q => .ok q
  | none =>
    match env.fetchQueue queueKey with
    | none => .error (.accountNotFound queueKey)
    | some q => .ok q

/-- The `heartbeatTxn` transaction that `OracleAccount.heartbeat` builds:
load the oracle, resolve queue/oracle-list/permission, run the two pre-flight
checks, then assemble the single-instruction transaction. -/
def OracleAccount.heartbeatTxn (env : Env) (acct : OracleAccount)
    (params : Option OracleHeartbeatParams) : Except SbError TransactionObject :=
  match OracleAccount.loadData env acct with
  | .error e => .error e
  | .ok oracle =>
    let tokenWallet := (params.bind (fun p => p.tokenWallet)).getD oracle.tokenAccount
    let queueKey := heartbeatQueueKey params oracle
    match resolvedQueue env params queueKey with
    | .error e => .error e
    | .ok queue =>
      let oracles := env.loadOracles queueKey
      let lastPubkey : Option PublicKey :=
        if oracles.length ≠ 0 then oracles[queue.gcIdx]? else some acct.publicKey
      let perm := (params.bind (fun p => p.permission)).getD
        (env.permissionFromSeed queue.authority queueKey acct.publicKey)
      let txn : TransactionObject :=
        { payer := acct.program.walletPubkey
          ixns := [acct.heartbeatInstruction acct.program.walletPubkey
            { tokenWallet := tokenWallet
              gcOracle := lastPubkey
              oracleQueue := queueKey
              dataBuffer := queue.dataBuffer
              permission := perm
              authority := some oracle.oracleAuthority }]
          signers :=
            match params.bind (fun p => p.authority) with
            | some a => [a]
            | none => [] }
      match env.fetchPermission perm.1 with
      | none =>
        .error
          (.generic "A requested oracle permission pda account has not been initialized.")
      | some _ =>
        match params.bind (fun p => p.authority) with
        | some kp =>
          if oracle.oracleAuthority ≠ kp.publicKey then
            .error (.incorrectAuthority oracle.oracleAuthority kp.publicKey)
          else .ok txn
        | none => .ok txn

/-- `OracleAccount.heartbeat`: build `heartbeatTxn` and submit it. -/
def OracleAccount.heartbeat (env : Env) (acct : OracleAccount)
    (params : Option OracleHeartbeatParams) : Except SbError Nat :=
  (OracleAccount.heartbeatTxn env acct params).map env.signAndSend

/-- The `gcOracle` account of a single-heartbeat-instruction transaction. -/
def txnGcOracle (t : TransactionObject) : Option (Option PublicKey) :=
  match t.ixns with
  | [.oracleHeartbeat _ accts] => some accts.gcOracle
  | _ => none

/-- `spl.Mint` from the SPL token library: the modelled code reads `address`. -/
structure Mint where
  address : PublicKey
  deriving DecidableEq

/-- An `anchor.Program` handle as used by `sbv2-utils/src/token.ts`. -/
structure AnchorProgram where
  programId : PublicKey
  deriving DecidableEq

/-- A web3.js `Transaction`: the list of added instructions. -/
structure Transaction where
  instructions : List Instruction
  deriving DecidableEq

/-- `new Transaction().add(i1, ..., ik)`. -/
def Transaction.addAll (t : Transaction) (ixns : List Instruction) : Transaction :=
  { instructions := t.instructions ++ ixns }

/-- Environment of external effects used by `sbv2-utils/src/token.ts`. -/
structure TokenUtilEnv where
  /-- `connection.getBalance`. -/
  getBalance : PublicKey → Int
  /-- `spl.getOrCreateAssociatedTokenAccount(connection, payer, mint, owner).address`. -/
  getOrCreateAssociatedTokenAccount : Keypair → PublicKey → PublicKey → PublicKey
  /-- `Keypair.generate()`: the next generated keypair. -/
  generatedKeypair : Keypair
  /-- `spl.getAssociatedTokenAddress(mint, owner)`. -/
  getAssociatedTokenAddress : PublicKey → PublicKey → PublicKey
  /-- `sendAndConfirmTransaction(connection, tx, signers)`: the signature. -/
  sendAndConfirmTransaction : Transaction → List Keypair → Nat
  /-- `spl.getAccount(connection, addr).amount`, observed after the
  confirmation whose signature is the first argument. -/
  getAccountAmountAfter : Nat → PublicKey → Nat
  /-- `programWallet(program)` from the switchboard-v2 library. -/
  programWallet : AnchorProgram → Keypair
  /-- `ProgramStateAccount.fromSeed(program)`: the program-state PDA and bump. -/
  programStateFromSeed : AnchorProgram → PublicKey × Nat
  /-- `programState.getTokenMint()`: `none` models an absent mint. -/
  getTokenMint : PublicKey → Option Mint

/-- `getOrCreateSwitchboardTokenAccount` from `sbv2-utils/src/token.ts`. -/
def getOrCreateSwitchboardTokenAccount (env : TokenUtilEnv) (program : AnchorProgram)
    (switchboardMint : Option Mint) (payer : Option Keypair) : Except SbError PublicKey :=
  let payerK := payer.getD (env.programWallet program)
  let getAssociatedAddress := fun (m : Mint) =>
    env.getOrCreateAssociatedTokenAccount payerK m.address payerK.publicKey
  match switchboardMint with
  | some m => .ok (getAssociatedAddress m)
  | none =>
    let ps := env.programStateFromSeed program
    match env.getTokenMint ps.1 with
    | some m => .ok (getAssociatedAddress m)
    | none => .error (.generic "failed to get associated token account")

/-- `transferWrappedSol` from `sbv2-utils/src/token.ts`: round-trip `amount`
lamports through an ephemeral wrapped-native account in one transaction and
report the payer's associated-account balance after confirmation. -/
def transferWrappedSol (env : TokenUtilEnv) (payerKeypair : Keypair) (amount : Int) : Nat :=
  let _payerBalance := env.getBalance payerKeypair.publicKey
  let payerAssociatedWallet :=
    env.getOrCreateAssociatedTokenAccount payerKeypair NATIVE_MINT payerKeypair.publicKey
  let ephemeralAccount := env.generatedKeypair
  let ephemeralWallet := env.getAssociatedTokenAddress NATIVE_MINT ephemeralAccount.publicKey
  let tx := Transaction.addAll { instructions := [] } [
    .createAssociatedTokenAccount payerKeypair.publicKey ephemeralWallet
      payerKeypair.publicKey NATIVE_MINT TOKEN_PROGRAM_ID ASSOCIATED_TOKEN_PROGRAM_ID,
    .systemTransfer payerKeypair.publicKey ephemeralWallet amount,
    .syncNative ephemeralWallet TOKEN_PROGRAM_ID,
    .splTransfer ephemeralWallet payerAssociatedWallet payerKeypair.publicKey amount
      [payerKeypair.publicKey, ephemeralAccount.publicKey] TOKEN_PROGRAM_ID,
    .closeAccount ephemeralWallet payerKeypair.publicKey payerKeypair.publicKey
      [payerKeypair.publicKey, ephemeralAccount.publicKey] TOKEN_PROGRAM_ID ]
  let txn := env.sendAndConfirmTransaction tx [payerKeypair, ephemeralAccount]
  env.getAccountAmountAfter txn payerAssociatedWallet

/-- Sample oracle state used to exercise the definitions on concrete inputs. -/
def oracleD0 : OracleAccountData :=
  { name := [1], metadata := [2], oracleAuthority := 11, queuePubkey := 21, tokenAccount := 31 }

/-- Sample queue state used to exercise the definitions on concrete inputs. -/
def queueD0 : OracleQueueAccountData :=
  { authority := 41, dataBuffer := 42, gcIdx := 0 }

/-- Sample permission state used to exercise the definitions on concrete inputs. -/
def permD0 : PermissionAccountData := { authority := 41 }

/-- A concrete environment used to exercise the definitions on concrete inputs. -/
def envW : Env :=
  { findProgramAddress := fun seeds pid => ((seeds.map List.sum).sum + pid, 255)
    parsePubkey := fun s => s.length
    fetchOracle := fun pk => if pk = 100 then some oracleD0 else none
    fetchQueue := fun pk => if pk = 21 then some queueD0 else none
    fetchPermission := fun pk => if pk = 50 then some permD0 else none
    loadOracles := fun _ => [71, 72]
    permissionFromSeed := fun _ _ _ => (50, 254)
    minimumBalanceForRentExemption := fun n => n * 10
    generatedKeypair := ⟨60, 0⟩
    getOrCreateWrappedUser := fun payer _ _ => (61, ⟨payer, [], []⟩)
    toTokenAmount := fun q => q.num
    typesDecode := fun data => if data = [0] then .error 0 else .ok oracleD0
    coderDecode := fun _ _ => oracleD0
    pack := fun l => l.take 1
    signAndSend := fun _ => 777 }

/-- A concrete program handle used to exercise the definitions. -/
def progW : SwitchboardProgram :=
  { programId := 500, walletPubkey := 501, mintAddress := 502, programStatePubkey := 503
    programStateBump := 7, oracleAccountDataSize := 636 }

/-- A concrete oracle account handle whose state `envW` knows. -/
def acctW : OracleAccount := ⟨progW, 100⟩

/-- `envW` with the permission account missing. -/
def envWNoPerm : Env := { envW with fetchPermission := fun _ => none }

/-- A concrete token-utility environment used to exercise the definitions. -/
def tenvW : TokenUtilEnv :=
  { getBalance := fun _ => 1000
    getOrCreateAssociatedTokenAccount := fun kp mint owner => kp.publicKey + mint + owner
    generatedKeypair := ⟨80, 1⟩
    getAssociatedTokenAddress := fun mint owner => mint * 1000 + owner
    sendAndConfirmTransaction := fun _ _ => 888
    getAccountAmountAfter := fun _ _ => 123
    programWallet := fun _ => ⟨90, 2⟩
    programStateFromSeed := fun p => (p.programId + 1, 253)
    getTokenMint := fun pk => if pk = 600 then some ⟨601⟩ else none }

/-- A concrete anchor program whose derived state has a token mint in `tenvW`. -/
def aprogW : AnchorProgram := ⟨599⟩

/-- A concrete anchor program whose derived state has no token mint in `tenvW`. -/
def aprogWNoMint : AnchorProgram := ⟨700⟩

/-- C1: for every input name and metadata (absent ones defaulting to the
empty string), the `types.oracleInit` payload built by
`OracleAccount.createInstructions` (its `oracleInitTxnObj` transaction)
carries the UTF-8 name truncated to at most 32 bytes and the UTF-8 metadata
truncated to at most 128 bytes. -/
theorem oracleInit_payload_truncated (env : Env) (program : SwitchboardProgram)
    (payer : PublicKey) (params : OracleCreateParams) :
    ∃ accts, (oracleInitTxnObj env program payer params).ixns[3]? =
        some (.oracleInit (oracleInitIxnParams env program params) accts)
      ∧ (oracleInitIxnParams env program params).name =
          (utf8Bytes (params.name.getD "")).take 32
      ∧ (oracleInitIxnParams env program params).name.length ≤ 32
      ∧ (oracleInitIxnParams env program params).metadata =
          (utf8Bytes (params.metadata.getD "")).take 128
      ∧ (oracleInitIxnParams env program params).metadata.length ≤ 128 := by
  exact ⟨_, rfl, rfl, List.length_take_le _ _, rfl, List.length_take_le _ _⟩

/-- C2: `OracleAccount.stakeInstructions` throws
`stake amount should be greater than 0` exactly when the stake amount is
absent, zero, or negative; with a positive stake amount the pre-flight check
passes and (provided the staking wallet is resolvable) a transaction is
built. -/
theorem stakeInstructions_guard (env : Env) (acct : OracleAccount) (payer : PublicKey)
    (params : StakeTokenParams) :
    (OracleAccount.stakeInstructions env acct payer params =
        .error (.generic "stake amount should be greater than 0")
      ↔ params.stakeAmount = none ∨ ∃ a, params.stakeAmount = some a ∧ a ≤ 0)
    ∧ (∀ a, params.stakeAmount = some a → 0 < a →
        (params.tokenAccount ≠ none ∨ env.fetchOracle acct.publicKey ≠ none) →
        ∃ t, OracleAccount.stakeInstructions env acct payer params = .ok t) := by
  constructor
  · cases hsa : params.stakeAmount with
    | none => simp [OracleAccount.stakeInstructions, hsa]
    | some a =>
      by_cases hle : a ≤ 0
      · simp [OracleAccount.stakeInstructions, hsa, hle]
      · cases hta : params.tokenAccount with
        | some t => simp [OracleAccount.stakeInstructions, hsa, hle, hta]
        | none =>
          cases hf : env.fetchOracle acct.publicKey with
          | none =>
            simp [OracleAccount.stakeInstructions, OracleAccount.loadData, hsa, hle, hta,
              hf, Except.map]
          | some d =>
            simp [OracleAccount.stakeInstructions, OracleAccount.loadData, hsa, hle, hta,
              hf, Except.map]
  · intro a hsa hpos hsrc
    have hle : ¬ a ≤ 0 := not_le.mpr hpos
    cases hta : params.tokenAccount with
    | some t =>
      exact ⟨oracleStakeTxnObj env payer params.funderAuthority a t,
        by simp [OracleAccount.stakeInstructions, oracleStakeTxnObj, hsa, hle, hta]⟩
    | none =>
      rcases hsrc with h | h
      · exact absurd hta h
      · cases hf : env.fetchOracle acct.publicKey with
        | none => exact absurd hf h
        | some d =>
          exact ⟨oracleStakeTxnObj env payer params.funderAuthority a d.tokenAccount,
            by simp [OracleAccount.stakeInstructions, oracleStakeTxnObj,
              OracleAccount.loadData, hsa, hle, hta, hf, Except.map]⟩

/-- C3: `OracleAccount.createInstructions` packs exactly the `oracleInit`
transaction plus, iff a positive `stakeAmount` was given, the stake
transaction; it throws `Expected a single TransactionObject` exactly when
packing yields more than one transaction, and when packing yields exactly
one it returns that single transaction. -/
theorem createInstructions_pack_single (env : Env) (program : SwitchboardProgram)
    (payer : PublicKey) (params : OracleCreateParams) :
    (OracleAccount.createInstructions env program payer params =
      (let packed := env.pack (oracleCreateTxnList env program payer params)
       if packed.length > 1 then .error (.generic "Expected a single TransactionObject")
       else .ok ((OracleAccount.fromSeed env program params.queueAccount
           env.generatedKeypair.publicKey).1, packed.head?)))
    ∧ ((env.pack (oracleCreateTxnList env program payer params)).length = 1 →
        ∃ t, OracleAccount.createInstructions env program payer params =
          .ok ((OracleAccount.fromSeed env program params.queueAccount
            env.generatedKeypair.publicKey).1, some t)) := by
  have hmain : OracleAccount.createInstructions env program payer params =
      (let packed := env.pack (oracleCreateTxnList env program payer params)
       if packed.length > 1 then .error (.generic "Expected a single TransactionObject")
       else .ok ((OracleAccount.fromSeed env program params.queueAccount
           env.generatedKeypair.publicKey).1, packed.head?)) := by
    cases hsa : params.stakeAmount with
    | none => simp [OracleAccount.createInstructions, oracleCreateTxnList, hsa]
    | some amt =>
      by_cases hpos : 0 < amt
      · have hle : ¬ amt ≤ 0 := not_le.mpr hpos
        simp [OracleAccount.createInstructions, oracleCreateTxnList,
          OracleAccount.stakeInstructions, oracleStakeTxnObj, hsa, hpos, hle]
      · simp [OracleAccount.createInstructions, oracleCreateTxnList, hsa, hpos]
  refine ⟨hmain, fun hlen => ?_⟩
  obtain ⟨t, ht⟩ := List.length_eq_one.mp hlen
  refine ⟨t, ?_⟩
  rw [hmain]
  simp [ht]

/-- C4: `OracleAccount.fromSeed` is deterministic: the returned oracle
public key and bump depend only on the seed bytes
`['OracleAccountData', queue, wallet]` and the program identifier. -/
theorem fromSeed_deterministic (env : Env) (p1 p2 : SwitchboardProgram)
    (queue wallet : PublicKey) (h : p1.programId = p2.programId) :
    ((OracleAccount.fromSeed env p1 queue wallet).1.publicKey =
        (OracleAccount.fromSeed env p2 queue wallet).1.publicKey
      ∧ (OracleAccount.fromSeed env p1 queue wallet).2 =
        (OracleAccount.fromSeed env p2 queue wallet).2)
    ∧ OracleAccount.fromSeed env p1 queue wallet =
        (⟨p1, (env.findProgramAddress
            [utf8Bytes "OracleAccountData", pkBytes queue, pkBytes wallet] p1.programId).1⟩,
          (env.findProgramAddress
            [utf8Bytes "OracleAccountData", pkBytes queue, pkBytes wallet] p1.programId).2) := by
  constructor
  · constructor <;> simp [OracleAccount.fromSeed, h]
  · rfl

/-- C5: `OracleAccount.load` returns the constructed account paired with
exactly the state `loadData` yields for that key, and `loadData` throws
`AccountNotFoundError` exactly when the fetch returns `null`, otherwise
returning the decoded fields. -/
theorem load_returns_loadData (env : Env) (program : SwitchboardProgram)
    (k : PubkeyOrString) :
    (OracleAccount.load env program k =
        (OracleAccount.loadData env ⟨program, keyOf env k⟩).map
          (fun st => (⟨program, keyOf env k⟩, st)))
    ∧ (∀ pk : PublicKey,
        (OracleAccount.loadData env ⟨program, pk⟩ = .error (.accountNotFound pk)
          ↔ env.fetchOracle pk = none)
        ∧ (∀ d, env.fetchOracle pk = some d →
            OracleAccount.loadData env ⟨program, pk⟩ = .ok d)) := by
  refine ⟨rfl, fun pk => ⟨?_, fun d hd => by simp [OracleAccount.loadData, hd]⟩⟩
  cases hf : env.fetchOracle pk with
  | none => simp [OracleAccount.loadData, hf]
  | some d => simp [OracleAccount.loadData, hf]

/-- C6: `transferWrappedSol` submits a single transaction whose instruction
sequence is exactly: create the ephemeral associated native-mint account,
transfer `amount` lamports from the payer to it, sync its native balance,
transfer `amount` tokens from it to the payer's associated wallet, and close
the ephemeral account back to the payer; it returns the payer's
associated-account balance observed after the confirmation. -/
theorem transferWrappedSol_sequence (env : TokenUtilEnv) (payerKeypair : Keypair)
    (amount : Int) :
    transferWrappedSol env payerKeypair amount =
      (let payerAssociatedWallet :=
        env.getOrCreateAssociatedTokenAccount payerKeypair NATIVE_MINT payerKeypair.publicKey
       let ephemeralAccount := env.generatedKeypair
       let ephemeralWallet :=
        env.getAssociatedTokenAddress NATIVE_MINT ephemeralAccount.publicKey
       env.getAccountAmountAfter
        (env.sendAndConfirmTransaction
          { instructions := [
              .createAssociatedTokenAccount payerKeypair.publicKey ephemeralWallet
                payerKeypair.publicKey NATIVE_MINT TOKEN_PROGRAM_ID
                ASSOCIATED_TOKEN_PROGRAM_ID,
              .systemTransfer payerKeypair.publicKey ephemeralWallet amount,
              .syncNative ephemeralWallet TOKEN_PROGRAM_ID,
              .splTransfer ephemeralWallet payerAssociatedWallet payerKeypair.publicKey
                amount [payerKeypair.publicKey, ephemeralAccount.publicKey]
                TOKEN_PROGRAM_ID,
              .closeAccount ephemeralWallet payerKeypair.publicKey payerKeypair.publicKey
                [payerKeypair.publicKey, ephemeralAccount.publicKey] TOKEN_PROGRAM_ID ] }
          [payerKeypair, ephemeralAccount])
        payerAssociatedWallet) := by
  rfl

/-- C7: `getOrCreateSwitchboardTokenAccount` returns the payer's associated
token account for a provided mint; with no mint it derives the program-state
PDA and uses that state's token mint; it throws
`failed to get associated token account` exactly when no mint was provided
and the program state yields none. -/
theorem getOrCreateSwitchboardTokenAccount_spec (env : TokenUtilEnv)
    (program : AnchorProgram) (switchboardMint : Option Mint) (payer : Option Keypair) :
    (∀ m, switchboardMint = some m →
      getOrCreateSwitchboardTokenAccount env program switchboardMint payer =
        .ok (env.getOrCreateAssociatedTokenAccount (payer.getD (env.programWallet program))
          m.address (payer.getD (env.programWallet program)).publicKey))
    ∧ (switchboardMint = none →
        ∀ m, env.getTokenMint (env.programStateFromSeed program).1 = some m →
          getOrCreateSwitchboardTokenAccount env program switchboardMint payer =
            .ok (env.getOrCreateAssociatedTokenAccount
              (payer.getD (env.programWallet program)) m.address
              (payer.getD (env.programWallet program)).publicKey))
    ∧ (getOrCreateSwitchboardTokenAccount env program switchboardMint payer =
          .error (.generic "failed to get associated token account")
        ↔ switchboardMint = none
          ∧ env.getTokenMint (env.programStateFromSeed program).1 = none) := by
  refine ⟨?_, ?_, ?_⟩
  · intro m hm
    simp [getOrCreateSwitchboardTokenAccount, hm]
  · intro hm m hmint
    simp [getOrCreateSwitchboardTokenAccount, hm, hmint]
  · cases hm : switchboardMint with
    | some m => simp [getOrCreateSwitchboardTokenAccount, hm]
    | none =>
      cases hmint : env.getTokenMint (env.programStateFromSeed program).1 with
      | none => simp [getOrCreateSwitchboardTokenAccount, hm, hmint]
      | some m => simp [getOrCreateSwitchboardTokenAccount, hm, hmint]

/-- C8: in `OracleAccount.heartbeat` (its `heartbeatTxn`), the built
heartbeat instruction's `gcOracle` is the oracle's own key when the loaded
oracle list is empty, is the list entry at `queue.gcIdx` when that index is
in bounds, and is undefined (`none`) when the list is nonempty but
`queue.gcIdx` is out of bounds. -/
theorem heartbeat_gcOracle_spec (env : Env) (acct : OracleAccount)
    (params : Option OracleHeartbeatParams) (oracle : OracleAccountData)
    (queue : OracleQueueAccountData)
    (hOracle : env.fetchOracle acct.publicKey = some oracle)
    (hQueue : resolvedQueue env params (heartbeatQueueKey params oracle) = .ok queue)
    (hPerm : (env.fetchPermission ((params.bind (fun p => p.permission)).getD
        (env.permissionFromSeed queue.authority (heartbeatQueueKey params oracle)
          acct.publicKey)).1).isSome = true)
    (hAuth : ∀ kp, params.bind (fun p => p.authority) = some kp →
      oracle.oracleAuthority = kp.publicKey) :
    ∃ t, OracleAccount.heartbeatTxn env acct params = .ok t
      ∧ ((env.loadOracles (heartbeatQueueKey params oracle) = [] →
            txnGcOracle t = some (some acct.publicKey))
        ∧ (∀ h : queue.gcIdx < (env.loadOracles (heartbeatQueueKey params oracle)).length,
            env.loadOracles (heartbeatQueueKey params oracle) ≠ [] →
            txnGcOracle t = some (some
              ((env.loadOracles (heartbeatQueueKey params oracle)).get ⟨queue.gcIdx, h⟩)))
        ∧ (env.loadOracles (heartbeatQueueKey params oracle) ≠ [] →
            (env.loadOracles (heartbeatQueueKey params oracle)).length ≤ queue.gcIdx →
            txnGcOracle t = some none)) := by
  obtain ⟨pd, hpd⟩ := Option.isSome_iff_exists.mp hPerm
  have hmain : OracleAccount.heartbeatTxn env acct params = .ok
      { payer := acct.program.walletPubkey
        ixns := [acct.heartbeatInstruction acct.program.walletPubkey
          { tokenWallet := (params.bind (fun p => p.tokenWallet)).getD oracle.tokenAccount
            gcOracle :=
              (if (env.loadOracles (heartbeatQueueKey params oracle)).length ≠ 0 then
                (env.loadOracles (heartbeatQueueKey params oracle))[queue.gcIdx]?
              else some acct.publicKey)
            oracleQueue := heartbeatQueueKey params oracle
            dataBuffer := queue.dataBuffer
            permission := (params.bind (fun p => p.permission)).getD
              (env.permissionFromSeed queue.authority (heartbeatQueueKey params oracle)
                acct.publicKey)
            authority := some oracle.oracleAuthority }]
        signers :=
          match params.bind (fun p => p.authority) with
          | some a => [a]
          | none => [] } := by
    cases haut : params.bind (fun p => p.authority) with
    | none =>
      simp [OracleAccount.heartbeatTxn, OracleAccount.loadData, hOracle, hQueue, hpd, haut]
    | some kp =>
      have hkp := hAuth kp haut
      simp [OracleAccount.heartbeatTxn, OracleAccount.loadData, hOracle, hQueue, hpd, haut,
        hkp]
  refine ⟨_, hmain, ?_, ?_, ?_⟩
  · intro hl
    simp [txnGcOracle, OracleAccount.heartbeatInstruction, hl]
  · intro h hne
    have hlen : (env.loadOracles (heartbeatQueueKey params oracle)).length ≠ 0 :=
      Nat.pos_iff_ne_zero.mp (List.length_pos.mpr hne)
    simp [txnGcOracle, OracleAccount.heartbeatInstruction, hlen,
      List.getElem?_eq_getElem h]
  · intro hne hge
    have hlen : (env.loadOracles (heartbeatQueueKey params oracle)).length ≠ 0 :=
      Nat.pos_iff_ne_zero.mp (List.length_pos.mpr hne)
    simp [txnGcOracle, OracleAccount.heartbeatInstruction, hlen, List.getElem?_eq_none hge]

/-- C9: `OracleAccount.heartbeat` throws before signing or submitting any
transaction when the permission account cannot be loaded, or when a supplied
authority keypair differs from the on-chain `oracleAuthority`; in both cases
the result does not depend on the send function at all. -/
theorem heartbeat_preflight_errors (env : Env) (acct : OracleAccount)
    (params : Option OracleHeartbeatParams) (oracle : OracleAccountData)
    (queue : OracleQueueAccountData)
    (hOracle : env.fetchOracle acct.publicKey = some oracle)
    (hQueue : resolvedQueue env params (heartbeatQueueKey params oracle) = .ok queue) :
    (env.fetchPermission ((params.bind (fun p => p.permission)).getD
        (env.permissionFromSeed queue.authority (heartbeatQueueKey params oracle)
          acct.publicKey)).1 = none →
      ∀ f, OracleAccount.heartbeat { env with signAndSend := f } acct params =
        .error (.generic
          "A requested oracle permission pda account has not been initialized."))
    ∧ (∀ pd kp, env.fetchPermission ((params.bind (fun p => p.permission)).getD
          (env.permissionFromSeed queue.authority (heartbeatQueueKey params oracle)
            acct.publicKey)).1 = some pd →
        params.bind (fun p => p.authority) = some kp →
        oracle.oracleAuthority ≠ kp.publicKey →
        ∀ f, OracleAccount.heartbeat { env with signAndSend := f } acct params =
          .error (.incorrectAuthority oracle.oracleAuthority kp.publicKey)) := by
  constructor
  · intro hperm f
    show (OracleAccount.heartbeatTxn env acct params).map f = _
    simp [OracleAccount.heartbeatTxn, OracleAccount.loadData, hOracle, hQueue, hperm,
      Except.map]
  · intro pd kp hpd haut hne f
    show (OracleAccount.heartbeatTxn env acct params).map f = _
    simp [OracleAccount.heartbeatTxn, OracleAccount.loadData, hOracle, hQueue, hpd, haut,
      hne, Except.map]

/-- C10: `OracleAccount.decode` returns exactly the generated codec's result
whenever that codec succeeds, and falls back to the program coder's decode
for account name `OracleAccountData` exactly when the codec throws. -/
theorem decode_generated_first (env : Env) (acct : OracleAccount) (data : List Nat) :
    (∀ r, env.typesDecode data = .ok r → OracleAccount.decode env acct data = r)
    ∧ (∀ e, env.typesDecode data = .error e →
        OracleAccount.decode env acct data = env.coderDecode "OracleAccountData" data) := by
  constructor
  · intro r hr
    simp [OracleAccount.decode, hr]
  · intro e he
    simp [OracleAccount.decode, he]

/-- Witness for C2: with a positive stake amount and a provided token
account, `stakeInstructions` builds a transaction. -/
theorem stakeInstructions_guard_witness :
    ∃ t, OracleAccount.stakeInstructions envW acctW 9
      { stakeAmount := some 1, tokenAccount := some 31 } = .ok t :=
  (stakeInstructions_guard envW acctW 9
    { stakeAmount := some 1, tokenAccount := some 31 }).2 1 rfl (by norm_num)
    (Or.inl (by simp))

/-- Witness for C3: with no stake amount and a pack yielding one
transaction, `createInstructions` returns exactly one transaction. -/
theorem createInstructions_pack_single_witness :
    ∃ t, OracleAccount.createInstructions envW progW 9 { queueAccount := 21 } =
      .ok ((OracleAccount.fromSeed envW progW 21 envW.generatedKeypair.publicKey).1,
        some t) :=
  (createInstructions_pack_single envW progW 9 { queueAccount := 21 }).2 rfl

/-- Witness for C4: the concrete derivation at queue 5 and wallet 7. -/
theorem fromSeed_deterministic_witness :
    OracleAccount.fromSeed envW progW 5 7 =
      (⟨progW, (envW.findProgramAddress
          [utf8Bytes "OracleAccountData", pkBytes 5, pkBytes 7] progW.programId).1⟩,
        (envW.findProgramAddress
          [utf8Bytes "OracleAccountData", pkBytes 5, pkBytes 7] progW.programId).2) :=
  (fromSeed_deterministic envW progW progW 5 7 rfl).2

/-- Witness for C5: `loadData` returns the fetched state at key 100. -/
theorem load_returns_loadData_witness :
    OracleAccount.loadData envW ⟨progW, 100⟩ = .ok oracleD0 :=
  ((load_returns_loadData envW progW (PubkeyOrString.pk 100)).2 100).2 oracleD0 rfl

/-- Witness for C7: with no mint provided and a program state yielding no
mint, the failure error is thrown. -/
theorem getOrCreateSwitchboardTokenAccount_witness :
    getOrCreateSwitchboardTokenAccount tenvW aprogWNoMint none none =
      .error (.generic "failed to get associated token account") :=
  ((getOrCreateSwitchboardTokenAccount_spec tenvW aprogWNoMint none none).2.2).mpr
    ⟨rfl, rfl⟩

/-- Witness for C8: with a two-oracle list and `gcIdx = 0`, the built
heartbeat carries the first listed oracle as `gcOracle`. -/
theorem heartbeat_gcOracle_witness :
    ∃ t, OracleAccount.heartbeatTxn envW acctW none = .ok t
      ∧ txnGcOracle t = some (some 71) := by
  obtain ⟨t, ht, hc⟩ := heartbeat_gcOracle_spec envW acctW none oracleD0 queueD0 rfl rfl
    rfl (fun kp h => nomatch h)
  exact ⟨t, ht, hc.2.1 (by decide) (by decide)⟩

/-- Witness for C9: with the permission account missing, `heartbeat` throws
the permission error whatever the send function is. -/
theorem heartbeat_preflight_errors_witness :
    OracleAccount.heartbeat { envWNoPerm with signAndSend := fun _ => 0 } acctW none =
      .error (.generic
        "A requested oracle permission pda account has not been initialized.") :=
  (heartbeat_preflight_errors envWNoPerm acctW none oracleD0 queueD0 rfl rfl).1 rfl
    (fun _ => 0)

/-- Witness for C10: on a buffer the generated codec accepts, `decode`
returns the codec's result. -/
theorem decode_generated_first_witness :
    OracleAccount.decode envW acctW [1] = oracleD0 :=
  (decode_generated_first envW acctW [1]).1 oracleD0 rfl
